import Mathlib

/-!
Shallow embedding of the LL-Game Game State Engine: the time-progression
state machine (`advanceTime`), the equipment resolver (`handleEquip`,
`handleDevForceEquip`), the turn-mutation pipeline (the state-update block
of `processTurn`), and the linear undo mechanism (`handleUndo`), translated
from `src/constants.ts` and the untitled utility/type modules.
-/

namespace LLGame

/-- The `StatType` enum from the types module (15 stat identifiers). -/
inductive StatType where
  | CONFIDENCE | WILL | WIT | GRACE | UTILITY | AWARENESS
  | VITALITY | FINANCE | SOCIAL_CLASS | BLUSH | FATIGUE | VULNERABILITY
  | MALE_GAZE | FEMALE_JUDGE | DANGER
  deriving DecidableEq, Repr

/-- The string value of each `StatType` enum member, as declared in the source. -/
def statName : StatType → String
  | .CONFIDENCE => "CONFIDENCE"
  | .WILL => "WILL"
  | .WIT => "WIT"
  | .GRACE => "GRACE"
  | .UTILITY => "UTILITY"
  | .AWARENESS => "AWARENESS"
  | .VITALITY => "VITALITY"
  | .FINANCE => "FINANCE"
  | .SOCIAL_CLASS => "SOCIAL_CLASS"
  | .BLUSH => "BLUSH"
  | .FATIGUE => "FATIGUE"
  | .VULNERABILITY => "VULNERABILITY"
  | .MALE_GAZE => "MALE_GAZE"
  | .FEMALE_JUDGE => "FEMALE_JUDGE"
  | .DANGER => "DANGER"

/-- Recover a `StatType` from a runtime string key (`key as StatType` followed
by the `stats[statKey] !== undefined` membership guard in `processTurn`):
`none` models a key that is not a field of the stats record. -/
def statTypeOfString (s : String) : Option StatType :=
  if s = "CONFIDENCE" then some .CONFIDENCE
  else if s = "WILL" then some .WILL
  else if s = "WIT" then some .WIT
  else if s = "GRACE" then some .GRACE
  else if s = "UTILITY" then some .UTILITY
  else if s = "AWARENESS" then some .AWARENESS
  else if s = "VITALITY" then some .VITALITY
  else if s = "FINANCE" then some .FINANCE
  else if s = "SOCIAL_CLASS" then some .SOCIAL_CLASS
  else if s = "BLUSH" then some .BLUSH
  else if s = "FATIGUE" then some .FATIGUE
  else if s = "VULNERABILITY" then some .VULNERABILITY
  else if s = "MALE_GAZE" then some .MALE_GAZE
  else if s = "FEMALE_JUDGE" then some .FEMALE_JUDGE
  else if s = "DANGER" then some .DANGER
  else none

/-- The `TimeSegment` enum, in declaration order (the order `Object.values`
returns). -/
inductive TimeSegment where
  | PRE_DAWN | DAWN | MORNING | DAY | EVENING | NIGHT | POST_NIGHT
  deriving DecidableEq, Repr

/-- `Object.values(TimeSegment)` — the 7 segments in declaration order. -/
def segmentsList : List TimeSegment :=
  [.PRE_DAWN, .DAWN, .MORNING, .DAY, .EVENING, .NIGHT, .POST_NIGHT]

/-- `segments.indexOf(currentSegment)` in `advanceTime`. -/
def segIndexOf (s : TimeSegment) : Nat :=
  segmentsList.indexOf s

/-- Result record of `advanceTime`. -/
structure AdvanceResult where
  segment : TimeSegment
  slots : Int
  newDay : Bool
  deriving DecidableEq, Repr

/-- `advanceTime(currentSegment, slotsUsed)` from the utility module:
zero-slot segments advance immediately (Post-Night rolls the day); a normal
segment with `slotsUsed < 2` is retained with one more slot used; otherwise
the next segment in declaration order is entered with 0 slots, with a
fail-safe day-rollover reset if the index would overflow. -/
def advanceTime (currentSegment : TimeSegment) (slotsUsed : Int) : AdvanceResult :=
  let currentIndex := segIndexOf currentSegment
  if currentSegment = .PRE_DAWN then
    { segment := .DAWN, slots := 0, newDay := false }
  else if currentSegment = .POST_NIGHT then
    { segment := .PRE_DAWN, slots := 0, newDay := true }
  else if slotsUsed < 2 then
    { segment := currentSegment, slots := slotsUsed + 1, newDay := false }
  else
    let nextIndex := currentIndex + 1
    if h : nextIndex < segmentsList.length then
      { segment := segmentsList.get ⟨nextIndex, h⟩, slots := 0, newDay := false }
    else
      { segment := .PRE_DAWN, slots := 0, newDay := true }

/-- The two zero-slot transitional segments. -/
def isZeroSlot (s : TimeSegment) : Bool :=
  s = TimeSegment.PRE_DAWN ∨ s = TimeSegment.POST_NIGHT

/-- One step of the time cursor: feed `advanceTime`'s output back in as the
next call's input (the per-turn use in `processTurn`). -/
def stepTime (p : TimeSegment × Int) : TimeSegment × Int :=
  let r := advanceTime p.1 p.2
  (r.segment, r.slots)

/-- The time cursor after `n` consecutive `advanceTime` calls. -/
def iterTime : Nat → TimeSegment × Int → TimeSegment × Int
  | 0, p => p
  | n + 1, p => iterTime n (stepTime p)

/-- The `Item['type']` union of 7 slot-type tags. -/
inductive ItemType where
  | Top | Bottom | Footwear | Accessory | UnderwearTop | UnderwearBottom | FullBody
  deriving DecidableEq, Repr

/-- The immutable `Item` record (item stat modifiers kept as the entry list of
the sparse `stats` object). -/
structure Item where
  id : String
  name : String
  type : ItemType
  basePrice : Int
  stats : List (String × Int)
  description : String
  tags : List String
  deriving DecidableEq, Repr

/-- The keys of the `equipped` object. -/
inductive SlotKey where
  | top | bottom | footwear | underwearTop | underwearBottom | accessory | fullBody
  deriving DecidableEq, Repr

/-- `getSlotFromType` from `constants.ts`: the fixed slot-type → slot-key
mapping (the 7 enum cases; the source's `default: 'accessory'` arm is dead
because the 7 cases are exhaustive over `Item['type']`). -/
def getSlotFromType : ItemType → SlotKey
  | .Top => .top
  | .Bottom => .bottom
  | .Footwear => .footwear
  | .Accessory => .accessory
  | .UnderwearTop => .underwearTop
  | .UnderwearBottom => .underwearBottom
  | .FullBody => .fullBody

/-- The `equipped` object: at most one item per fixed slot. -/
structure Equipped where
  top : Option Item
  bottom : Option Item
  footwear : Option Item
  underwearTop : Option Item
  underwearBottom : Option Item
  accessory : Option Item
  fullBody : Option Item
  deriving DecidableEq, Repr

/-- Read `equipped[slotKey]`. -/
def Equipped.get (e : Equipped) : SlotKey → Option Item
  | .top => e.top
  | .bottom => e.bottom
  | .footwear => e.footwear
  | .underwearTop => e.underwearTop
  | .underwearBottom => e.underwearBottom
  | .accessory => e.accessory
  | .fullBody => e.fullBody

/-- Write `equipped[slotKey] = v`. -/
def Equipped.set (e : Equipped) (k : SlotKey) (v : Option Item) : Equipped :=
  match k with
  | .top => { e with top := v }
  | .bottom => { e with bottom := v }
  | .footwear => { e with footwear := v }
  | .underwearTop => { e with underwearTop := v }
  | .underwearBottom => { e with underwearBottom := v }
  | .accessory => { e with accessory := v }
  | .fullBody => { e with fullBody := v }

/-- Number of occupied equipment slots. -/
def occupiedCount (e : Equipped) : Nat :=
  e.top.isSome.toNat + e.bottom.isSome.toNat + e.footwear.isSome.toNat +
    e.underwearTop.isSome.toNat + e.underwearBottom.isSome.toNat +
    e.accessory.isSome.toNat + e.fullBody.isSome.toNat

/-- A history entry `{role, text, retracted?}`; the optional `retracted` flag
is modelled as a `Bool` that is `false` when absent. -/
structure HistoryEntry where
  role : Bool -- `true` = 'user', `false` = 'model'
  text : String
  retracted : Bool
  deriving DecidableEq, Repr

/-- One `npcRelationships` record. -/
structure Relationship where
  trust : Int
  attraction : Int
  familiarity : Int
  isFavorite : Bool
  deriving DecidableEq, Repr

/-- The `time` sub-object of `GameState`. -/
structure TimeState where
  day : Int
  segment : TimeSegment
  slotsUsed : Int
  deriving DecidableEq, Repr

/-- `GameState`: the engine's single source of truth. The total stats record
is a function on `StatType`; `npcRelationships` is a partial map from
character name (`none` = key absent). -/
structure GameState where
  stats : StatType → Int
  inventory : List Item
  equipped : Equipped
  time : TimeState
  location : String
  history : List HistoryEntry
  npcRelationships : String → Option Relationship

/-- `handleEquip(index)` from `constants.ts`: remove the indexed item from
inventory, displace `top`/`bottom` to inventory when the item is full-body,
displace the target slot's occupant to inventory, and place the item in its
resolved slot. An out-of-range index is a no-op. Note: this (non-debug) path
does NOT displace `fullBody` when the item is a Top or Bottom. -/
def handleEquip (state : GameState) (index : Nat) : GameState :=
  match state.inventory[index]? with
  | none => state
  | some item =>
    let newInventory := state.inventory.eraseIdx index
    let slotKey := getSlotFromType item.type
    let cleared :=
      if item.type = ItemType.FullBody then
        let afterTop :=
          match state.equipped.top with
          | some t => (newInventory ++ [t], state.equipped.set .top none)
          | none => (newInventory, state.equipped)
        match afterTop.2.bottom with
        | some b => (afterTop.1 ++ [b], afterTop.2.set .bottom none)
        | none => afterTop
      else (newInventory, state.equipped)
    let swapped :=
      match cleared.2.get slotKey with
      | some cur => (cleared.1 ++ [cur], cleared.2)
      | none => cleared
    { state with
        inventory := swapped.1
        equipped := swapped.2.set slotKey (some item) }

/-- `handleDevForceEquip(item)` from `constants.ts` (debug surface): like
`handleEquip` but takes the item directly (no inventory removal) and ALSO
displaces an equipped `fullBody` item when the new item is a Top or Bottom. -/
def handleDevForceEquip (state : GameState) (item : Item) : GameState :=
  let slotKey := getSlotFromType item.type
  let cleared :=
    if item.type = ItemType.FullBody then
      let afterTop :=
        match state.equipped.top with
        | some t => (state.inventory ++ [t], state.equipped.set .top none)
        | none => (state.inventory, state.equipped)
      match afterTop.2.bottom with
      | some b => (afterTop.1 ++ [b], afterTop.2.set .bottom none)
      | none => afterTop
    else (state.inventory, state.equipped)
  let cleared2 :=
    if item.type = ItemType.Top ∨ item.type = ItemType.Bottom then
      match cleared.2.fullBody with
      | some fb => (cleared.1 ++ [fb], cleared.2.set .fullBody none)
      | none => cleared
    else cleared
  let swapped :=
    match cleared2.2.get slotKey with
    | some cur => (cleared2.1 ++ [cur], cleared2.2)
    | none => cleared2
  { state with
      inventory := swapped.1
      equipped := swapped.2.set slotKey (some item) }

/-- `Math.max(0, Math.min(100, x))`, the clamp used by the turn pipeline. -/
def clamp100 (x : Int) : Int :=
  max 0 (min 100 x)

/-- One iteration of the `statChanges` forEach in `processTurn`: cast the key
to a stat, and if the stats record has that key, add `(val || 0)` and clamp
to [0,100]; an unknown key is ignored. -/
def applyStatEntry (stats : StatType → Int) (k : String) (v : Int) : StatType → Int :=
  match statTypeOfString k with
  | some s => fun t => if t = s then clamp100 (stats s + v) else stats t
  | none => stats

/-- The whole `statChanges` forEach, over the object's entries in order. -/
def applyStatChanges (stats : StatType → Int) : List (String × Int) → (StatType → Int)
  | [] => stats
  | (k, v) :: rest => applyStatChanges (applyStatEntry stats k v) rest

/-- A `relationshipChanges` entry value: partial `{trust?, attraction?,
familiarity?}` deltas. -/
structure RelChange where
  trust : Option Int
  attraction : Option Int
  familiarity : Option Int
  deriving DecidableEq, Repr

/-- JavaScript truthiness of an optional number field: present and nonzero.
(`if (updates.moneyChange)`, `if (change.trust)`, …) -/
def truthyNum : Option Int → Bool
  | some n => n ≠ 0
  | none => false

/-- JavaScript truthiness of an optional string field: present and nonempty. -/
def truthyStr : Option String → Bool
  | some s => s ≠ ""
  | none => false

/-- One iteration of the `relationshipChanges` forEach: auto-create a zeroed
record for an unknown character, then apply each truthy sub-delta with a
clamp to [0,100]. -/
def applyRelChange (rels : String → Option Relationship) (npc : String)
    (c : RelChange) : String → Option Relationship :=
  let base : Relationship :=
    match rels npc with
    | some r => r
    | none => { trust := 0, attraction := 0, familiarity := 0, isFavorite := false }
  let r1 :=
    match c.trust with
    | some t => if t ≠ 0 then { base with trust := clamp100 (base.trust + t) } else base
    | none => base
  let r2 :=
    match c.attraction with
    | some a => if a ≠ 0 then { r1 with attraction := clamp100 (r1.attraction + a) } else r1
    | none => r1
  let r3 :=
    match c.familiarity with
    | some f => if f ≠ 0 then { r2 with familiarity := clamp100 (r2.familiarity + f) } else r2
    | none => r2
  fun k => if k = npc then some r3 else rels k

/-- The whole `relationshipChanges` forEach, over the object's entries. -/
def applyRelChanges (rels : String → Option Relationship) :
    List (String × RelChange) → (String → Option Relationship)
  | [] => rels
  | (npc, c) :: rest => applyRelChanges (applyRelChange rels npc c) rest

/-- The `updates` payload of a parsed `GameEngineResponse` (`itemGained` /
`itemLost` identifiers are carried but never consumed by the state-update
block of `processTurn`). -/
structure Updates where
  statChanges : Option (List (String × Int))
  relationshipChanges : Option (List (String × RelChange))
  moneyChange : Option Int
  locationChange : Option String
  itemGained : Option (List String)
  deriving DecidableEq, Repr

/-- The "Apply Game Mechanics Updates" block of `processTurn` (without the
final history append): stat changes added with clamp; `moneyChange` added to
`FINANCE` raw and unclamped when truthy; `locationChange` replacing
`location` verbatim when truthy; relationship changes with character
discovery and clamp. -/
def applyUpdates (state : GameState) (u : Updates) : GameState :=
  let stats1 :=
    match u.statChanges with
    | some l => applyStatChanges state.stats l
    | none => state.stats
  let stats2 :=
    if truthyNum u.moneyChange then
      fun t => if t = StatType.FINANCE
        then stats1 StatType.FINANCE + u.moneyChange.getD 0
        else stats1 t
    else stats1
  let loc :=
    if truthyStr u.locationChange then u.locationChange.getD state.location
    else state.location
  let rels :=
    match u.relationshipChanges with
    | some l => applyRelChanges state.npcRelationships l
    | none => state.npcRelationships
  { state with stats := stats2, location := loc, npcRelationships := rels }

/-- A successfully parsed `GameEngineResponse`. -/
structure ParsedResponse where
  narrative : String
  updates : Updates

/-- The response phase of `processTurn` (the `try { JSON.parse } catch` plus
the `setGameState` updater): on a parse success the delta is applied and the
parsed narrative appended to history; on a parse failure (`parsed = none`)
the raw response text becomes the narrative fallback and no delta is
applied. -/
def applyResponsePhase (state : GameState) (parsed : Option ParsedResponse)
    (responseText : String) : GameState :=
  let narrativeText :=
    match parsed with
    | some p => p.narrative
    | none => responseText
  let nextState :=
    match parsed with
    | some p => applyUpdates state p.updates
    | none => state
  { nextState with
      history := nextState.history ++ [{ role := false, text := narrativeText, retracted := false }] }

/-- `handleUndo` from `constants.ts`: a no-op when the snapshot stack is
empty or a turn is in flight; otherwise pop the most recent snapshot,
restore it, and append to its history every entry of the current history
beyond the snapshot's history length, flagged `retracted: true`. Returns the
new stack and the restored state. -/
def handleUndo (stack : List GameState) (isProcessing : Bool)
    (current : GameState) : List GameState × GameState :=
  match stack.getLast?, isProcessing with
  | some previousState, false =>
    let retractedItems :=
      (current.history.drop previousState.history.length).map
        (fun h => { h with retracted := true })
    (stack.dropLast,
     { previousState with history := previousState.history ++ retractedItems })
  | _, _ => (stack, current)

/-- `INITIAL_STATS` from `constants.ts`. -/
def initialStats : StatType → Int
  | .CONFIDENCE => 10
  | .WILL => 10
  | .WIT => 10
  | .GRACE => 10
  | .UTILITY => 10
  | .AWARENESS => 10
  | .VITALITY => 100
  | .FINANCE => 100
  | .SOCIAL_CLASS => 0
  | .BLUSH => 0
  | .FATIGUE => 0
  | .VULNERABILITY => 0
  | .MALE_GAZE => 0
  | .FEMALE_JUDGE => 0
  | .DANGER => 0

/-- The all-empty `equipped` object of `INITIAL_GAME_STATE`. -/
def emptyEquipped : Equipped :=
  { top := none, bottom := none, footwear := none, underwearTop := none,
    underwearBottom := none, accessory := none, fullBody := none }

/-- A concrete state shaped like `INITIAL_GAME_STATE` (initial stats, empty
equipment, day 0 pre-dawn), used to instantiate the universally quantified
theorems on concrete inputs. -/
def demoState : GameState :=
  { stats := initialStats
    inventory := []
    equipped := emptyEquipped
    time := { day := 0, segment := .PRE_DAWN, slotsUsed := 0 }
    location := "home_lily_bedroom"
    history := []
    npcRelationships := fun _ => none }

/-- An `updates` payload with all optional fields absent. -/
def emptyUpdates : Updates :=
  { statChanges := none, relationshipChanges := none, moneyChange := none,
    locationChange := none, itemGained := none }

/-- A delta carrying only `moneyChange: m`. -/
def moneyDelta (m : Int) : Updates :=
  { emptyUpdates with moneyChange := some m }

/-- A delta carrying only `statChanges: {FINANCE: v}`. -/
def financeStatDelta (v : Int) : Updates :=
  { emptyUpdates with statChanges := some [("FINANCE", v)] }

/-! ## Theorems -/

theorem segIndexOf_eq (s : TimeSegment) :
    segIndexOf s = match s with
      | .PRE_DAWN => 0 | .DAWN => 1 | .MORNING => 2 | .DAY => 3
      | .EVENING => 4 | .NIGHT => 5 | .POST_NIGHT => 6 := by
  cases s <;> decide

/-- C4: `advanceTime` reports a new day exactly when the input segment is
post-night (whose successor is pre-dawn); the zero-slot pre-dawn transition,
retaining a normal segment, and advancing a normal segment to its successor
all report `newDay = false`. -/
theorem advanceTime_newDay_iff_postNight (seg : TimeSegment) (slots : Int) :
    (advanceTime seg slots).newDay = true ↔ seg = TimeSegment.POST_NIGHT := by
  cases seg <;>
    simp [advanceTime, segIndexOf_eq, segmentsList] <;>
    split_ifs <;>
    simp_all

/-- The invariant of the time cursor: zero-slot segments carry 0 used slots,
and `slotsUsed` stays within [0,2]. -/
def TimeInv (p : TimeSegment × Int) : Prop :=
  (isZeroSlot p.1 = true → p.2 = 0) ∧ 0 ≤ p.2 ∧ p.2 ≤ 2

theorem timeInv_step {p : TimeSegment × Int} (h : TimeInv p) : TimeInv (stepTime p) := by
  obtain ⟨seg, slots⟩ := p
  obtain ⟨hz, h0, h2⟩ := h
  cases seg <;>
    simp_all [TimeInv, stepTime, advanceTime, segIndexOf_eq, segmentsList, isZeroSlot] <;>
    split_ifs <;>
    simp_all <;>
    omega

theorem timeInv_iter {p : TimeSegment × Int} (h : TimeInv p) :
    ∀ n, TimeInv (iterTime n p) := by
  intro n
  induction n generalizing p with
  | zero => exact h
  | succ n ih => exact ih (timeInv_step h)

/-- C5: starting from `slotsUsed = 0` in any segment, after any number of
`advanceTime` calls the cursor has `slotsUsed = 0` whenever the segment is
one of the two zero-slot segments, and `slotsUsed ∈ [0,2]` always (so in
particular on the five normal segments). -/
theorem iterTime_slots_invariant (n : Nat) (seg : TimeSegment) :
    (isZeroSlot (iterTime n (seg, 0)).1 = true → (iterTime n (seg, 0)).2 = 0) ∧
      0 ≤ (iterTime n (seg, 0)).2 ∧ (iterTime n (seg, 0)).2 ≤ 2 :=
  timeInv_iter (by refine ⟨fun _ => rfl, by omega, by omega⟩) n

/-- Witness for C5: one `advanceTime` call from post-night lands on the
zero-slot pre-dawn segment with `slotsUsed = 0`. -/
theorem iterTime_slots_invariant_on_postNight :
    (iterTime 1 (TimeSegment.POST_NIGHT, 0)).2 = 0 :=
  (iterTime_slots_invariant 1 TimeSegment.POST_NIGHT).1 (by decide)

theorem statTypeOfString_statName (s : StatType) :
    statTypeOfString (statName s) = some s := by
  cases s <;> rfl

theorem clamp100_bounds (x : Int) : 0 ≤ clamp100 x ∧ clamp100 x ≤ 100 := by
  unfold clamp100
  omega

/-- C2: from `FINANCE = 100`, the money-change path gives `70` after
`{moneyChange: -30}` (an unclamped raw add, as `{moneyChange: -200}` driving
`FINANCE` to `-100` shows), while the stat-change path then clamps
`{statChanges: {FINANCE: -200}}` to `0`: the two write paths to `FINANCE`
differ in clamping. -/
theorem finance_two_write_paths (state : GameState)
    (h : state.stats StatType.FINANCE = 100) :
    (applyUpdates state (moneyDelta (-30))).stats StatType.FINANCE = 70 ∧
    (applyUpdates (applyUpdates state (moneyDelta (-30))) (financeStatDelta (-200))).stats
        StatType.FINANCE = 0 ∧
    (applyUpdates state (moneyDelta (-200))).stats StatType.FINANCE = -100 := by
  have hfin : statTypeOfString "FINANCE" = some StatType.FINANCE := rfl
  refine ⟨?_, ?_, ?_⟩ <;>
    norm_num [applyUpdates, moneyDelta, financeStatDelta, emptyUpdates, truthyNum, truthyStr,
      applyStatChanges, applyStatEntry, hfin, clamp100, h]

/-- Witness for C2 at the initial stats (`FINANCE = 100`). -/
theorem finance_two_write_paths_on_demoState :
    (applyUpdates demoState (moneyDelta (-30))).stats StatType.FINANCE = 70 ∧
    (applyUpdates (applyUpdates demoState (moneyDelta (-30))) (financeStatDelta (-200))).stats
        StatType.FINANCE = 0 ∧
    (applyUpdates demoState (moneyDelta (-200))).stats StatType.FINANCE = -100 :=
  finance_two_write_paths demoState rfl

/-- C9: a stat-change entry with delta `0` still clamps: for any stat `s`,
`{statChanges: {s: 0}}` rewrites `stats[s]` to `clamp(stats[s])`; in
particular on a state whose `FINANCE` exceeds `100` (reachable through the
unclamped money path), `{statChanges: {FINANCE: 0}}` lowers `FINANCE` to
`100`. -/
theorem statChange_zero_clamps (state : GameState) (s : StatType) :
    (applyUpdates state { emptyUpdates with statChanges := some [(statName s, 0)] }).stats s
        = clamp100 (state.stats s) ∧
    (100 < state.stats StatType.FINANCE →
      (applyUpdates state (financeStatDelta 0)).stats StatType.FINANCE = 100) := by
  constructor
  · simp [applyUpdates, emptyUpdates, truthyNum, applyStatChanges, applyStatEntry,
      statTypeOfString_statName]
  · intro hfin
    have : statTypeOfString "FINANCE" = some StatType.FINANCE := rfl
    simp [applyUpdates, financeStatDelta, emptyUpdates, truthyNum, applyStatChanges,
      applyStatEntry, this, clamp100]
    omega

/-- Witness for C9: `FINANCE = 100 + 50 = 150` via the money path, then a
zero `FINANCE` stat change clamps it back to 100. -/
theorem statChange_zero_clamps_on_demoState :
    (applyUpdates (applyUpdates demoState (moneyDelta 50)) (financeStatDelta 0)).stats
        StatType.FINANCE = 100 :=
  (statChange_zero_clamps (applyUpdates demoState (moneyDelta 50)) StatType.FINANCE).2
    (by norm_num [applyUpdates, moneyDelta, emptyUpdates, truthyNum, demoState, initialStats])

theorem applyStatEntry_eq_or_clamp (stats : StatType → Int) (k : String) (v : Int)
    (s : StatType) :
    applyStatEntry stats k v s = stats s ∨ ∃ x, applyStatEntry stats k v s = clamp100 x := by
  unfold applyStatEntry
  cases statTypeOfString k with
  | none => left; rfl
  | some t =>
    by_cases hs : s = t
    · subst hs; right; exact ⟨stats s + v, by simp⟩
    · left; simp [hs]

theorem applyStatChanges_eq_or_clamp (l : List (String × Int)) :
    ∀ (stats : StatType → Int) (s : StatType),
      applyStatChanges stats l s = stats s ∨ ∃ x, applyStatChanges stats l s = clamp100 x := by
  induction l with
  | nil => intro stats s; left; rfl
  | cons kv rest ih =>
    intro stats s
    have hdef : applyStatChanges stats (kv :: rest)
        = applyStatChanges (applyStatEntry stats kv.1 kv.2) rest := by
      cases kv; rfl
    rw [hdef]
    rcases ih (applyStatEntry stats kv.1 kv.2) s with h | h
    · rw [h]; exact applyStatEntry_eq_or_clamp stats kv.1 kv.2 s
    · right; exact h

/-- For a stat other than FINANCE, the money-change write leaves it alone. -/
theorem applyUpdates_stats_eq_statChanges (state : GameState) (u : Updates)
    (s : StatType) (hs : s ≠ StatType.FINANCE) :
    (applyUpdates state u).stats s =
      match u.statChanges with
      | some l => applyStatChanges state.stats l s
      | none => state.stats s := by
  unfold applyUpdates
  cases u.statChanges <;> by_cases hm : truthyNum u.moneyChange <;> simp [hm, hs]

/-- C6: starting from a state whose non-FINANCE stats all lie in `[0,100]`,
any delta leaves every stat other than FINANCE in `[0,100]`: stat-change
entries are added then clamped, a delta key that is not a stat of the record
leaves the stats function untouched (no new stat is created), and no other
delta field writes a non-FINANCE stat. -/
theorem applyUpdates_nonFinance_in_range (state : GameState) (u : Updates)
    (h : ∀ s, s ≠ StatType.FINANCE → 0 ≤ state.stats s ∧ state.stats s ≤ 100) :
    (∀ s, s ≠ StatType.FINANCE →
        0 ≤ (applyUpdates state u).stats s ∧ (applyUpdates state u).stats s ≤ 100) ∧
    (∀ (k : String) (v : Int), statTypeOfString k = none →
        applyStatEntry state.stats k v = state.stats) := by
  constructor
  · intro s hs
    rw [applyUpdates_stats_eq_statChanges state u s hs]
    cases u.statChanges with
    | none => exact h s hs
    | some l =>
      dsimp only
      rcases applyStatChanges_eq_or_clamp l state.stats s with he | ⟨x, he⟩
      · rw [he]; exact h s hs
      · rw [he]; exact clamp100_bounds x
  · intro k v hk
    unfold applyStatEntry
    rw [hk]

/-- Witness for C6: a delta with an oversized CONFIDENCE change, an unknown
stat key, and a money change keeps CONFIDENCE in range on the initial
stats. -/
theorem applyUpdates_nonFinance_in_range_on_demoState :
    0 ≤ (applyUpdates demoState
          { statChanges := some [("CONFIDENCE", 500), ("WISDOM", 3)],
            relationshipChanges := none, moneyChange := some 999,
            locationChange := none, itemGained := none }).stats StatType.CONFIDENCE ∧
      (applyUpdates demoState
          { statChanges := some [("CONFIDENCE", 500), ("WISDOM", 3)],
            relationshipChanges := none, moneyChange := some 999,
            locationChange := none, itemGained := none }).stats StatType.CONFIDENCE ≤ 100 :=
  (applyUpdates_nonFinance_in_range demoState
      { statChanges := some [("CONFIDENCE", 500), ("WISDOM", 3)],
        relationshipChanges := none, moneyChange := some 999,
        locationChange := none, itemGained := none }
      (fun s hs => by cases s <;> simp_all [demoState, initialStats])).1
    StatType.CONFIDENCE (by simp)

/-- C8: when the collaborator's response text fails to parse, the response
phase appends the raw text verbatim as the model history entry and applies
no delta: stats, inventory, equipment, location and relationships are
untouched. -/
theorem parse_failure_raw_fallback (state : GameState) (raw : String) :
    (applyResponsePhase state none raw).stats = state.stats ∧
    (applyResponsePhase state none raw).inventory = state.inventory ∧
    (applyResponsePhase state none raw).equipped = state.equipped ∧
    (applyResponsePhase state none raw).location = state.location ∧
    (applyResponsePhase state none raw).npcRelationships = state.npcRelationships ∧
    (applyResponsePhase state none raw).time = state.time ∧
    (applyResponsePhase state none raw).history =
      state.history ++ [{ role := false, text := raw, retracted := false }] :=
  ⟨rfl, rfl, rfl, rfl, rfl, rfl, rfl⟩

/-- C3: undoing after a snapshot `S` was pushed restores every field of `S`
exactly, except `history`, which is `S.history` followed by the entries of
the current history beyond index `|S.history|`, each flagged
`retracted = true`. -/
theorem handleUndo_restores_snapshot (st : List GameState) (S Scur : GameState) :
    (handleUndo (st ++ [S]) false Scur).2.stats = S.stats ∧
    (handleUndo (st ++ [S]) false Scur).2.inventory = S.inventory ∧
    (handleUndo (st ++ [S]) false Scur).2.equipped = S.equipped ∧
    (handleUndo (st ++ [S]) false Scur).2.time = S.time ∧
    (handleUndo (st ++ [S]) false Scur).2.location = S.location ∧
    (handleUndo (st ++ [S]) false Scur).2.npcRelationships = S.npcRelationships ∧
    (handleUndo (st ++ [S]) false Scur).2.history =
      S.history ++ (Scur.history.drop S.history.length).map
        (fun h => { h with retracted := true }) := by
  have hlast : (st ++ [S]).getLast? = some S := by simp
  simp only [handleUndo, hlast]
  simp

/-- C10: `handleEquip` only rewrites `inventory` and `equipped`; stats,
time, location, history and relationships are untouched. -/
theorem handleEquip_frame (state : GameState) (index : Nat) :
    (handleEquip state index).stats = state.stats ∧
    (handleEquip state index).time = state.time ∧
    (handleEquip state index).location = state.location ∧
    (handleEquip state index).history = state.history ∧
    (handleEquip state index).npcRelationships = state.npcRelationships := by
  unfold handleEquip
  cases state.inventory[index]? <;> simp

/-- C7: equipping conserves items: `|inventory| + |occupied slots|` is the
same before and after `handleEquip`, for every state and every index
(including out-of-range indices, which are no-ops). -/
theorem handleEquip_conserves_items (state : GameState) (index : Nat) :
    (handleEquip state index).inventory.length
        + occupiedCount (handleEquip state index).equipped
      = state.inventory.length + occupiedCount state.equipped := by
  obtain ⟨stats, inv, e, time, loc, hist, rels⟩ := state
  rcases hit : inv[index]? with _ | item
  · simp [handleEquip, hit]
  · have hlt : index < inv.length := (List.getElem?_eq_some.mp hit).1
    have hlen : (inv.eraseIdx index).length = inv.length - 1 := by
      rw [List.length_eraseIdx]; simp [hlt]
    have hpos : 0 < inv.length := Nat.lt_of_le_of_lt (Nat.zero_le _) hlt
    obtain ⟨t, b, f, ut, ub, a, fb⟩ := e
    obtain ⟨iid, iname, ty, iprice, istats, idesc, itags⟩ := item
    cases ty
    case Top =>
      rcases t with _ | t0 <;>
        simp [handleEquip, hit, getSlotFromType, Equipped.get, Equipped.set,
          occupiedCount, hlen] <;>
        omega
    case Bottom =>
      rcases b with _ | b0 <;>
        simp [handleEquip, hit, getSlotFromType, Equipped.get, Equipped.set,
          occupiedCount, hlen] <;>
        omega
    case Footwear =>
      rcases f with _ | f0 <;>
        simp [handleEquip, hit, getSlotFromType, Equipped.get, Equipped.set,
          occupiedCount, hlen] <;>
        omega
    case Accessory =>
      rcases a with _ | a0 <;>
        simp [handleEquip, hit, getSlotFromType, Equipped.get, Equipped.set,
          occupiedCount, hlen] <;>
        omega
    case UnderwearTop =>
      rcases ut with _ | ut0 <;>
        simp [handleEquip, hit, getSlotFromType, Equipped.get, Equipped.set,
          occupiedCount, hlen] <;>
        omega
    case UnderwearBottom =>
      rcases ub with _ | ub0 <;>
        simp [handleEquip, hit, getSlotFromType, Equipped.get, Equipped.set,
          occupiedCount, hlen] <;>
        omega
    case FullBody =>
      rcases t with _ | t0 <;> rcases b with _ | b0 <;> rcases fb with _ | fb0 <;>
        simp [handleEquip, hit, getSlotFromType, Equipped.get, Equipped.set,
          occupiedCount, hlen] <;>
        omega

/-- A bare Top item used as concrete test data. -/
def plainTop : Item :=
  { id := "top_tee", name := "Tee", type := .Top, basePrice := 10,
    stats := [], description := "", tags := [] }

/-- A bare FullBody item used as concrete test data. -/
def plainDress : Item :=
  { id := "dress_basic", name := "Dress", type := .FullBody, basePrice := 30,
    stats := [], description := "", tags := [] }

/-- A concrete state with the dress equipped in `fullBody` and the tee at
inventory index 0. -/
def fullBodyState : GameState :=
  { demoState with
      inventory := [plainTop]
      equipped := { emptyEquipped with fullBody := some plainDress } }

/-- C1 fails on the non-debug path: with a full-body dress equipped,
`handleEquip` of a Top leaves `equipped.fullBody` occupied next to the newly
equipped top (the dress is not displaced to inventory), while the debug
`handleDevForceEquip` of the same item does displace the dress as the claim
states. -/
theorem handleEquip_top_keeps_fullBody :
    ((handleEquip fullBodyState 0).equipped.fullBody = some plainDress ∧
     (handleEquip fullBodyState 0).equipped.top = some plainTop ∧
     (handleEquip fullBodyState 0).inventory = []) ∧
    ((handleDevForceEquip fullBodyState plainTop).equipped.fullBody = none ∧
     (handleDevForceEquip fullBodyState plainTop).equipped.top = some plainTop ∧
     (handleDevForceEquip fullBodyState plainTop).inventory = [plainTop, plainDress]) := by
  refine ⟨⟨?_, ?_, ?_⟩, ⟨?_, ?_, ?_⟩⟩ <;> rfl

end LLGame
